import Mathlib

/-
Verification development for the taskq repository (a single-host task queue).

The Python sources are shallowly embedded:
- the SQLite task table (db.py) becomes a list of task records in insertion
  order; SQL point updates become first-match record updates;
- the SQL query `ORDER BY priority ASC, created_at ASC` over rows in
  insertion (rowid) order becomes a stable insertion sort on the key
  (priority, created_at);
- the executor (scheduler.py, execute_task) becomes a pure function over an
  explicit execution environment recording what the operating system would do
  (whether the log files open, whether the spawn succeeds, the pid, how long
  the child runs, and its exit code); wall-clock instants are naturals;
- one iteration of the scheduler polling loop (scheduler.py, scheduler_loop)
  becomes a function from the store, the current backoff interval and the
  resource-probe outcome to the batch of released tasks, the next backoff
  interval and the control outcome of the iteration;
- the cancel command (main.py, cmd_cancel) becomes a function returning the
  updated store and a report of what happened.
-/

namespace TaskQ

/-- Task status values, as stored in the status column (models.py). -/
inductive Status
  | pending
  | running
  | completed
  | cancelled
  | failed
deriving DecidableEq, Repr

/-- A Python value stored in the JSON environment column: either a dict of
string pairs, None, or some other (non-dict) JSON value.  The executor tests
it with isinstance(..., dict) (scheduler.py line 126). -/
inductive PyEnv
  | dict (entries : List (String × String))
  | null
  | nonDict
deriving DecidableEq, Repr

/-- isinstance(x, dict) for a stored environment value. -/
def PyEnv.isDict : PyEnv → Bool
  | .dict _ => true
  | _ => false

/-- One row of the tasks table (models.py, class Task).  Timestamps are
naturals (seconds); priority is an integer as in the column type. -/
structure Task where
  id : Nat
  name : String
  command : String
  priority : Int
  created_at : Nat
  status : Status
  environment : PyEnv
  cwd : Option String
  stdout_file : Option String
  stderr_file : Option String
  pid : Option Nat
  timeout : Option Nat
  start_time : Option Nat
  end_time : Option Nat
deriving DecidableEq, Repr

/-- Update the first row matching the predicate, leaving the rest unchanged.
This models `session.query(Task).filter(Task.id == task_id).first()` followed
by a field assignment and commit (db.py): when no row matches, nothing
happens. -/
def updateFirst (p : Task → Bool) (f : Task → Task) : List Task → List Task
  | [] => []
  | t :: ts => if p t then f t :: ts else t :: updateFirst p f ts

/-- db.py, update_task_status. -/
def update_task_status (db : List Task) (task_id : Nat) (st : Status) : List Task :=
  updateFirst (fun t => t.id == task_id) (fun t => { t with status := st }) db

/-- db.py, update_task_pid. -/
def update_task_pid (db : List Task) (task_id : Nat) (pid : Nat) : List Task :=
  updateFirst (fun t => t.id == task_id) (fun t => { t with pid := some pid }) db

/-- db.py, update_task_start_time. -/
def update_task_start_time (db : List Task) (task_id : Nat) (ts : Nat) : List Task :=
  updateFirst (fun t => t.id == task_id) (fun t => { t with start_time := some ts }) db

/-- db.py, update_task_end_time. -/
def update_task_end_time (db : List Task) (task_id : Nat) (ts : Nat) : List Task :=
  updateFirst (fun t => t.id == task_id) (fun t => { t with end_time := some ts }) db

/-- db.py, get_task_by_id: first row whose id matches, if any. -/
def get_task_by_id (db : List Task) (task_id : Nat) : Option Task :=
  db.find? (fun t => t.id == task_id)

/-- The ordering key used by get_tasks: priority ascending, then created_at
ascending (db.py line 108). -/
def taskLe (a b : Task) : Prop :=
  a.priority < b.priority ∨ (a.priority = b.priority ∧ a.created_at ≤ b.created_at)

instance decTaskLe : DecidableRel taskLe := fun a b =>
  inferInstanceAs (Decidable (a.priority < b.priority ∨
    (a.priority = b.priority ∧ a.created_at ≤ b.created_at)))

instance : IsTotal Task taskLe :=
  ⟨fun a b => by unfold taskLe; omega⟩

instance : IsTrans Task taskLe :=
  ⟨fun a b c => by unfold taskLe; omega⟩

/-- db.py, get_tasks: optionally filter by a status list (skipped when the
argument is None or the empty list, mirroring Python truthiness of
`if status:`), then order by (priority, created_at).  The SQL ORDER BY over
rows held in insertion (rowid) order is modelled as a stable insertion sort
on that key, so ties keep insertion order. -/
def get_tasks (db : List Task) (status : Option (List Status)) : List Task :=
  let q := match status with
    | some ss => if ss.isEmpty then db else db.filter (fun t => ss.contains t.status)
    | none => db
  List.insertionSort taskLe q

/-- What the operating system does during one run of execute_task:
whether opening the two log files succeeds, whether the spawn succeeds, the
pid of the child, how many seconds the child runs before exiting, its exit
code (never inspected by the source), the wall clock at entry, and which
directories exist (os.path.isdir). -/
structure ExecEnv where
  clock : Nat
  isdir : String → Bool
  openOk : Bool
  popenOk : Bool
  pid : Nat
  duration : Nat
  exitCode : Int

/-- Result of one run of execute_task: the updated store, whether a child
process was spawned, and the env/cwd values that were passed to the spawn
call (after the coercions at scheduler.py lines 126-127). -/
structure ExecResult where
  db : List Task
  spawned : Bool
  passedEnv : Option (List (String × String))
  passedCwd : Option String

/-- scheduler.py, execute_task.  Mirrors the try block line by line:
mark running, stamp start_time, coerce environment and cwd, open the log
files, spawn, record the pid, then wait (bounded by timeout when it is set
and non-zero).  Any exception (failed open, failed spawn, timeout expiry)
lands in the except block: status failed and end_time stamped.  A normal
wait return lands in the completed path regardless of the exit code.
End instants: a normal exit ends at clock + duration; a timeout expiry ends
at clock + timeout; a failure before the wait ends at clock. -/
def execute_task (task : Task) (ev : ExecEnv) (db : List Task) : ExecResult :=
  let db1 := update_task_status db task.id Status.running
  let db2 := update_task_start_time db1 task.id ev.clock
  let env : Option (List (String × String)) :=
    match task.environment with
    | PyEnv.dict entries => some entries
    | _ => none
  let cwd : Option String :=
    match task.cwd with
    | some s => if !s.isEmpty && ev.isdir s then some s else none
    | none => none
  if ev.openOk then
    if ev.popenOk then
      let db3 := update_task_pid db2 task.id ev.pid
      match task.timeout with
      | none =>
        let dbDone := update_task_end_time
          (update_task_status db3 task.id Status.completed) task.id (ev.clock + ev.duration)
        { db := dbDone, spawned := true, passedEnv := env, passedCwd := cwd }
      | some tmo =>
        if tmo = 0 then
          let dbDone := update_task_end_time
            (update_task_status db3 task.id Status.completed) task.id (ev.clock + ev.duration)
          { db := dbDone, spawned := true, passedEnv := env, passedCwd := cwd }
        else if ev.duration ≤ tmo then
          let dbDone := update_task_end_time
            (update_task_status db3 task.id Status.completed) task.id (ev.clock + ev.duration)
          { db := dbDone, spawned := true, passedEnv := env, passedCwd := cwd }
        else
          let dbDone := update_task_end_time
            (update_task_status db3 task.id Status.failed) task.id (ev.clock + tmo)
          { db := dbDone, spawned := true, passedEnv := env, passedCwd := cwd }
    else
      let dbDone := update_task_end_time
        (update_task_status db2 task.id Status.failed) task.id ev.clock
      { db := dbDone, spawned := false, passedEnv := env, passedCwd := cwd }
  else
    let dbDone := update_task_end_time
      (update_task_status db2 task.id Status.failed) task.id ev.clock
    { db := dbDone, spawned := false, passedEnv := env, passedCwd := cwd }

/-- The row for the executed task after execute_task, as a function of its
row before: a closed-form description of the five store updates, proved
correct in execute_task_db_find below. -/
def execFinal (task : Task) (ev : ExecEnv) (t₀ : Task) : Task :=
  if ev.openOk then
    if ev.popenOk then
      match task.timeout with
      | none =>
        { t₀ with
          status := Status.completed, start_time := some ev.clock,
          pid := some ev.pid, end_time := some (ev.clock + ev.duration) }
      | some tmo =>
        if tmo = 0 then
          { t₀ with
            status := Status.completed, start_time := some ev.clock,
            pid := some ev.pid, end_time := some (ev.clock + ev.duration) }
        else if ev.duration ≤ tmo then
          { t₀ with
            status := Status.completed, start_time := some ev.clock,
            pid := some ev.pid, end_time := some (ev.clock + ev.duration) }
        else
          { t₀ with
            status := Status.failed, start_time := some ev.clock,
            pid := some ev.pid, end_time := some (ev.clock + tmo) }
    else
      { t₀ with
        status := Status.failed, start_time := some ev.clock,
        end_time := some ev.clock }
  else
    { t₀ with
      status := Status.failed, start_time := some ev.clock,
      end_time := some ev.clock }

/-- Report produced by the cancel command. -/
inductive CancelOutcome
  | notFound
  | rejected (st : Status)
  | cancelled (signalSent : Bool)
deriving DecidableEq, Repr

/-- main.py, cmd_cancel: look the task up; reject (without touching the
store) when it is absent or neither pending nor running; otherwise attempt
to signal the recorded pid when the task is running and the pid is truthy
(killOk says whether os.kill succeeds; its failure is reported, not fatal),
and set the status to cancelled.  No other column is written. -/
def cmd_cancel (db : List Task) (task_id : Nat) (killOk : Bool) :
    List Task × CancelOutcome :=
  match get_task_by_id db task_id with
  | none => (db, CancelOutcome.notFound)
  | some task =>
    if task.status != Status.pending && task.status != Status.running then
      (db, CancelOutcome.rejected task.status)
    else
      let signalSent := task.status == Status.running && (task.pid.getD 0 != 0) && killOk
      (update_task_status db task_id Status.cancelled, CancelOutcome.cancelled signalSent)

/-- Outcome of the resource-monitor probe (resources.py,
is_system_overloaded): a boolean, or an exception (psutil failure), which
the source does not catch. -/
inductive MonitorResult
  | ok (overloaded : Bool)
  | err
deriving DecidableEq, Repr

/-- Control outcome of one iteration of the scheduler loop. -/
inductive IterOutcome
  | crashed
  | cooldown (sleepSecs : Nat)
  | dispatched
  | idle (sleepSecs : Nat)
deriving DecidableEq, Repr

/-- Result of one iteration: the tasks submitted to the executor pool (in
submission order), the backoff interval after the iteration, and the control
outcome. -/
structure IterResult where
  released : List Task
  sleep_interval : Nat
  outcome : IterOutcome
deriving DecidableEq, Repr

/-- scheduler.py line 85: sleep_interval is initialized to 2. -/
def initial_sleep_interval : Nat := 2

/-- One iteration of the while loop in scheduler.py, scheduler_loop
(lines 90-107): query the pending tasks; if the overload probe raises, the
exception propagates out of the loop (outcome crashed); if it reports
overloaded, sleep 30 seconds and continue without dispatching; otherwise
submit the first five pending tasks in order, or, when there are none,
update the backoff interval with the expression on line 106 (whose `else 5`
arm is unreachable there, since that branch runs only when pending is empty)
and sleep.  The backoff interval is left unchanged on every other path. -/
def scheduler_iteration (db : List Task) (sleep_interval : Nat)
    (probe : MonitorResult) : IterResult :=
  let pending := get_tasks db (some [Status.pending])
  match probe with
  | MonitorResult.err =>
    { released := [], sleep_interval := sleep_interval, outcome := IterOutcome.crashed }
  | MonitorResult.ok true =>
    { released := [], sleep_interval := sleep_interval, outcome := IterOutcome.cooldown 30 }
  | MonitorResult.ok false =>
    if pending.isEmpty then
      let si := if pending.isEmpty then min (sleep_interval * 2) 60 else 5
      { released := [], sleep_interval := si, outcome := IterOutcome.idle si }
    else
      { released := pending.take 5
        sleep_interval := sleep_interval
        outcome := IterOutcome.dispatched }

/-- Whether the while loop runs another iteration after the given outcome:
an uncaught exception leaves the loop through the finally block
(scheduler.py lines 108-111), which shuts the pool down and marks the
scheduler stopped; every other outcome continues the loop. -/
def scheduler_loop_continues : IterOutcome → Bool
  | IterOutcome.crashed => false
  | _ => true

/-- A pending task with the given id, priority and creation instant; the
remaining columns hold the values cmd_submit (main.py) would store. -/
def samplePending (i : Nat) (pr : Int) (c : Nat) : Task :=
  { id := i
    name := "job"
    command := "echo hi"
    priority := pr
    created_at := c
    status := Status.pending
    environment := PyEnv.dict [("FOO", "bar")]
    cwd := some "/tmp"
    stdout_file := some "/tmp/stdout.log"
    stderr_file := some "/tmp/stderr.log"
    pid := none
    timeout := none
    start_time := none
    end_time := none }

/-- Three pending tasks with priorities 3, 1, 2, submitted in that order
(ids 1, 2, 3), the scenario named by the spec for dispatch order. -/
def example312 : List Task :=
  [samplePending 1 3 10, samplePending 2 1 11, samplePending 3 2 12]

/-!  Helper lemmas about the store operations. -/

/-- When no row satisfies the predicate, updateFirst is the identity. -/
theorem updateFirst_eq_of_none (p : Task → Bool) (f : Task → Task) :
    ∀ l : List Task, (∀ t ∈ l, p t = false) → updateFirst p f l = l := by
  intro l
  induction l with
  | nil => intro _; rfl
  | cons t ts ih =>
    intro h
    have ht := h t (List.mem_cons_self t ts)
    simp [updateFirst, ht, ih fun u hu => h u (List.mem_cons_of_mem t hu)]

/-- Point lookup after a point update with an id-preserving field change. -/
theorem find_updateFirst (i : Nat) (f : Task → Task) (hf : ∀ t, (f t).id = t.id) :
    ∀ l : List Task,
      (updateFirst (fun t => t.id == i) f l).find? (fun t => t.id == i)
        = (l.find? (fun t => t.id == i)).map f := by
  intro l
  induction l with
  | nil => rfl
  | cons t ts ih =>
    by_cases h : t.id = i
    · simp [updateFirst, List.find?_cons, h, hf]
    · simp [updateFirst, List.find?_cons, h, ih]

theorem find_update_task_status (db : List Task) (i : Nat) (st : Status) :
    (update_task_status db i st).find? (fun t => t.id == i)
      = (db.find? (fun t => t.id == i)).map (fun t => { t with status := st }) :=
  find_updateFirst i (fun t => { t with status := st }) (fun _ => rfl) db

theorem find_update_task_pid (db : List Task) (i : Nat) (pid : Nat) :
    (update_task_pid db i pid).find? (fun t => t.id == i)
      = (db.find? (fun t => t.id == i)).map (fun t => { t with pid := some pid }) :=
  find_updateFirst i (fun t => { t with pid := some pid }) (fun _ => rfl) db

theorem find_update_task_start_time (db : List Task) (i : Nat) (ts : Nat) :
    (update_task_start_time db i ts).find? (fun t => t.id == i)
      = (db.find? (fun t => t.id == i)).map (fun t => { t with start_time := some ts }) :=
  find_updateFirst i (fun t => { t with start_time := some ts }) (fun _ => rfl) db

theorem find_update_task_end_time (db : List Task) (i : Nat) (ts : Nat) :
    (update_task_end_time db i ts).find? (fun t => t.id == i)
      = (db.find? (fun t => t.id == i)).map (fun t => { t with end_time := some ts }) :=
  find_updateFirst i (fun t => { t with end_time := some ts }) (fun _ => rfl) db

/-- A point update whose field change leaves an observation g unchanged
leaves the g-image of the whole store unchanged. -/
theorem map_updateFirst {α : Type} (p : Task → Bool) (f : Task → Task) (g : Task → α)
    (hf : ∀ t, g (f t) = g t) :
    ∀ l : List Task, (updateFirst p f l).map g = l.map g := by
  intro l
  induction l with
  | nil => rfl
  | cons t ts ih =>
    by_cases h : p t
    · simp [updateFirst, h, hf]
    · simp [updateFirst, h, ih]

/-- The row of the executed task after execute_task is execFinal of its row
before, whenever the task is present in the store. -/
theorem execute_task_db_find (task : Task) (ev : ExecEnv) (db : List Task) (t₀ : Task)
    (h : db.find? (fun t => t.id == task.id) = some t₀) :
    ((execute_task task ev db).db).find? (fun t => t.id == task.id)
      = some (execFinal task ev t₀) := by
  unfold execute_task execFinal
  by_cases ho : ev.openOk
  · by_cases hp : ev.popenOk
    · cases htm : task.timeout with
      | none =>
        simp [ho, hp, htm, find_update_task_status, find_update_task_start_time,
          find_update_task_pid, find_update_task_end_time, h]
      | some tmo =>
        by_cases h0 : tmo = 0
        · simp [ho, hp, htm, h0, find_update_task_status, find_update_task_start_time,
            find_update_task_pid, find_update_task_end_time, h]
        · by_cases hd : ev.duration ≤ tmo
          · simp [ho, hp, htm, h0, hd, find_update_task_status, find_update_task_start_time,
              find_update_task_pid, find_update_task_end_time, h]
          · simp [ho, hp, htm, h0, hd, find_update_task_status, find_update_task_start_time,
              find_update_task_pid, find_update_task_end_time, h]
    · simp [ho, hp, find_update_task_status, find_update_task_start_time,
        find_update_task_end_time, h]
  · simp [ho, find_update_task_status, find_update_task_start_time,
      find_update_task_end_time, h]

/-!  Lemmas about the ordering returned by get_tasks. -/

/-- Filtering by a singleton status list is filtering by equality with that
status. -/
theorem pendingFilter_eq (db : List Task) :
    db.filter (fun t => ([Status.pending]).contains t.status)
      = db.filter (fun t => t.status == Status.pending) := by
  apply List.filter_congr
  intro t _
  cases ht : t.status <;> rfl

/-- get_tasks on the pending filter, written through the equality filter. -/
theorem get_tasks_pending (db : List Task) :
    get_tasks db (some [Status.pending])
      = List.insertionSort taskLe (db.filter (fun t => t.status == Status.pending)) := by
  rw [← pendingFilter_eq]
  rfl

/-- Inserting an element that fails a predicate does not change the filtered
view of the list. -/
theorem filter_orderedInsert_of_neg (p : Task → Bool) (a : Task) (ha : p a = false) :
    ∀ l : List Task, (List.orderedInsert taskLe a l).filter p = l.filter p := by
  intro l
  induction l with
  | nil => simp [List.orderedInsert, ha]
  | cons b bs ih =>
    by_cases hab : taskLe a b
    · simp [List.orderedInsert, hab, ha]
    · simp [List.orderedInsert, hab, List.filter_cons, ih]

/-- Inserting an element that satisfies a predicate, when every element it
is placed after fails the predicate, prepends it to the filtered view. -/
theorem filter_orderedInsert_of_pos (p : Task → Bool) (a : Task) (ha : p a = true)
    (hmin : ∀ b : Task, ¬ taskLe a b → p b = false) :
    ∀ l : List Task, (List.orderedInsert taskLe a l).filter p = a :: l.filter p := by
  intro l
  induction l with
  | nil => simp [List.orderedInsert, ha]
  | cons b bs ih =>
    by_cases hab : taskLe a b
    · simp [List.orderedInsert, hab, ha]
    · have hb := hmin b hab
      simp [List.orderedInsert, hab, List.filter_cons, hb, ih]

/-- Stability of the sort: the elements of one ordering-equivalence class
(any predicate whose members are pairwise related both ways) come out of the
sort in their original relative order. -/
theorem filter_insertionSort (p : Task → Bool)
    (hkey : ∀ a b : Task, p a = true → p b = true → taskLe a b) :
    ∀ l : List Task, (List.insertionSort taskLe l).filter p = l.filter p := by
  intro l
  induction l with
  | nil => rfl
  | cons a l ih =>
    by_cases ha : p a = true
    · have hmin : ∀ b : Task, ¬ taskLe a b → p b = false := by
        intro b hb
        by_contra hpb
        exact hb (hkey a b ha (by simpa using hpb))
      calc (List.insertionSort taskLe (a :: l)).filter p
          = (List.orderedInsert taskLe a (List.insertionSort taskLe l)).filter p := rfl
        _ = a :: (List.insertionSort taskLe l).filter p :=
            filter_orderedInsert_of_pos p a ha hmin _
        _ = a :: l.filter p := by rw [ih]
        _ = (a :: l).filter p := by simp [List.filter_cons, ha]
    · have ha2 : p a = false := by simpa using ha
      calc (List.insertionSort taskLe (a :: l)).filter p
          = (List.orderedInsert taskLe a (List.insertionSort taskLe l)).filter p := rfl
        _ = (List.insertionSort taskLe l).filter p := filter_orderedInsert_of_neg p a ha2 _
        _ = l.filter p := ih
        _ = (a :: l).filter p := by simp [List.filter_cons, ha2]

/-!  Concrete scenarios used by counterexamples and witnesses. -/

/-- A task whose command exits with code 1 and has no timeout. -/
def exitOneTask : Task := { samplePending 1 0 0 with command := "exit 1" }

/-- An execution in which everything the operating system does succeeds: the
log files open, the spawn succeeds with pid 42, and the child runs one second
and exits with code 1. -/
def exitOneRun : ExecEnv where
  clock := 100
  isdir := fun _ => true
  openOk := true
  popenOk := true
  pid := 42
  duration := 1
  exitCode := 1

/-- A task whose snapshotted working directory has been deleted by execution
time. -/
def goneCwdTask : Task := { samplePending 1 0 0 with cwd := some "/gone" }

/-- An execution in which os.path.isdir answers false (the directory does not
exist), yet the log files open and the spawn succeeds with pid 7; the child
runs two seconds and exits 0. -/
def goneCwdRun : ExecEnv where
  clock := 50
  isdir := fun _ => false
  openOk := true
  popenOk := true
  pid := 7
  duration := 2
  exitCode := 0

/-- A task currently running, with a recorded pid and no end time. -/
def runningTask : Task :=
  { samplePending 1 0 0 with
    status := Status.running
    pid := some 77
    start_time := some 10 }

/-- A task with a one-second timeout whose command sleeps five seconds. -/
def sleepyTask : Task :=
  { samplePending 1 0 0 with command := "sleep 5", timeout := some 1 }

/-- The execution of sleepyTask: spawn succeeds with pid 9, the child would
run five seconds. -/
def sleepyRun : ExecEnv where
  clock := 200
  isdir := fun _ => true
  openOk := true
  popenOk := true
  pid := 9
  duration := 5
  exitCode := 0

/-- A task that already completed. -/
def doneTask : Task :=
  { samplePending 4 0 0 with
    status := Status.completed
    pid := some 5
    start_time := some 1
    end_time := some 2 }

/-!  Claims. -/

/-- Claim C1, counterexample: a child process that exits with the non-zero
code 1, with no timeout and no spawn error, is recorded as completed, not
failed.  execute_task never inspects the exit status of the wait (the
exitCode field of the run plays no role in the final status). -/
theorem C1_counterexample :
    exitOneRun.exitCode ≠ 0
    ∧ ((execute_task exitOneTask exitOneRun [exitOneTask]).db).find? (fun t => t.id == 1)
        = some { exitOneTask with
            status := Status.completed
            start_time := some 100
            pid := some 42
            end_time := some 101 } :=
  ⟨by decide, rfl⟩

/-- Claim C1 as amended: a spawned child whose wait returns normally (no
timeout expiry) leaves the task completed whatever its exit code; failed
arises only from an exception on the execution path (open or spawn failure,
or timeout expiry). -/
theorem C1_amended_nonzero_exit_completed (task : Task) (ev : ExecEnv) (db : List Task)
    (t₀ : Task) (h : db.find? (fun t => t.id == task.id) = some t₀)
    (ho : ev.openOk = true) (hp : ev.popenOk = true)
    (hnt : ∀ tmo, task.timeout = some tmo → tmo ≠ 0 → ev.duration ≤ tmo) :
    ∃ tf, ((execute_task task ev db).db).find? (fun t => t.id == task.id) = some tf
      ∧ tf.status = Status.completed := by
  refine ⟨execFinal task ev t₀, execute_task_db_find task ev db t₀ h, ?_⟩
  unfold execFinal
  cases htm : task.timeout with
  | none => simp [ho, hp]
  | some tmo =>
    by_cases h0 : tmo = 0
    · simp [ho, hp, h0]
    · simp [ho, hp, h0, hnt tmo htm h0]

/-- Witness for the amended claim C1, at the concrete non-zero-exit run. -/
theorem C1_amended_witness :
    ∃ tf, ((execute_task exitOneTask exitOneRun [exitOneTask]).db).find?
        (fun t => t.id == exitOneTask.id) = some tf
      ∧ tf.status = Status.completed :=
  C1_amended_nonzero_exit_completed exitOneTask exitOneRun [exitOneTask] exitOneTask rfl rfl rfl
    (fun tmo htmo _ => by
      rw [show exitOneTask.timeout = none from rfl] at htmo
      cases htmo)

/-- Claim C2, counterexample: a task whose cwd does not exist at execution
time is not failed; the executor substitutes None for the working directory,
spawns the child anyway, and the task completes. -/
theorem C2_counterexample :
    (execute_task goneCwdTask goneCwdRun [goneCwdTask]).spawned = true
    ∧ (execute_task goneCwdTask goneCwdRun [goneCwdTask]).passedCwd = none
    ∧ ((execute_task goneCwdTask goneCwdRun [goneCwdTask]).db).find? (fun t => t.id == 1)
        = some { goneCwdTask with
            status := Status.completed
            start_time := some 50
            pid := some 7
            end_time := some 52 } :=
  ⟨rfl, rfl, rfl⟩

/-- Claim C2 as amended: when the log files open and the spawn succeeds, a
child is always spawned; a non-existent cwd is replaced by None (the child
inherits the worker directory) and a non-dict environment is replaced by
None (the child inherits the worker environment); neither condition fails
the task. -/
theorem C2_amended_cwd_env_coerced (task : Task) (ev : ExecEnv) (db : List Task)
    (ho : ev.openOk = true) (hp : ev.popenOk = true) :
    (execute_task task ev db).spawned = true
    ∧ (∀ s, task.cwd = some s → ev.isdir s = false →
        (execute_task task ev db).passedCwd = none)
    ∧ (task.environment.isDict = false → (execute_task task ev db).passedEnv = none) := by
  refine ⟨?_, ?_, ?_⟩
  · unfold execute_task
    cases htm : task.timeout with
    | none => simp [ho, hp]
    | some tmo =>
      by_cases h0 : tmo = 0
      · simp [ho, hp, h0]
      · by_cases hd : ev.duration ≤ tmo
        · simp [ho, hp, h0, hd]
        · simp [ho, hp, h0, hd]
  · intro s hs hdir
    unfold execute_task
    cases htm : task.timeout with
    | none => simp [ho, hp, hs, hdir]
    | some tmo =>
      by_cases h0 : tmo = 0
      · simp [ho, hp, h0, hs, hdir]
      · by_cases hd : ev.duration ≤ tmo
        · simp [ho, hp, h0, hd, hs, hdir]
        · simp [ho, hp, h0, hd, hs, hdir]
  · intro henv
    unfold execute_task
    cases he : task.environment with
    | dict entries => rw [he] at henv; cases henv
    | null =>
      cases htm : task.timeout with
      | none => simp [ho, hp, he]
      | some tmo =>
        by_cases h0 : tmo = 0
        · simp [ho, hp, h0, he]
        · by_cases hd : ev.duration ≤ tmo
          · simp [ho, hp, h0, hd, he]
          · simp [ho, hp, h0, hd, he]
    | nonDict =>
      cases htm : task.timeout with
      | none => simp [ho, hp, he]
      | some tmo =>
        by_cases h0 : tmo = 0
        · simp [ho, hp, h0, he]
        · by_cases hd : ev.duration ≤ tmo
          · simp [ho, hp, h0, hd, he]
          · simp [ho, hp, h0, hd, he]

/-- Witness for the amended claim C2, at the concrete deleted-cwd run. -/
theorem C2_amended_witness :
    (execute_task goneCwdTask goneCwdRun [goneCwdTask]).spawned = true
    ∧ (execute_task goneCwdTask goneCwdRun [goneCwdTask]).passedCwd = none :=
  ⟨(C2_amended_cwd_env_coerced goneCwdTask goneCwdRun [goneCwdTask] rfl rfl).1,
   (C2_amended_cwd_env_coerced goneCwdTask goneCwdRun [goneCwdTask] rfl rfl).2.1
     "/gone" rfl rfl⟩

/-- Claim C3, counterexample: cancelling a running task sets its status to
cancelled but does not stamp end_time, so a task that is
cancelled-after-running has no end_time, refuting the stated equivalence. -/
theorem C3_counterexample :
    runningTask.status = Status.running
    ∧ (cmd_cancel [runningTask] 1 true).2 = CancelOutcome.cancelled true
    ∧ ((cmd_cancel [runningTask] 1 true).1).find? (fun t => t.id == 1)
        = some { runningTask with status := Status.cancelled }
    ∧ ({ runningTask with status := Status.cancelled } : Task).end_time = none :=
  ⟨rfl, rfl, rfl, rfl⟩

/-- Claim C3 as amended: end_time is stamped exactly by the terminal paths
of the executor — after execute_task the task row has an end_time and a
status of completed or failed — while cancellation, of a pending or of a
running task alike, never writes end_time (it preserves the end_time column
of every row). -/
theorem C3_amended_end_time_paths :
    (∀ (db : List Task) (i : Nat) (k : Bool),
      ((cmd_cancel db i k).1).map (fun t => t.end_time) = db.map (fun t => t.end_time))
    ∧ (∀ (task : Task) (ev : ExecEnv) (db : List Task) (t₀ : Task),
      db.find? (fun t => t.id == task.id) = some t₀ →
      ∃ tf, ((execute_task task ev db).db).find? (fun t => t.id == task.id) = some tf
        ∧ tf.end_time.isSome = true
        ∧ (tf.status = Status.completed ∨ tf.status = Status.failed)) := by
  constructor
  · intro db i k
    unfold cmd_cancel
    cases hg : get_task_by_id db i with
    | none => simp
    | some task =>
      by_cases hrej : (task.status != Status.pending && task.status != Status.running) = true
      · simp [hrej]
      · have hmap := map_updateFirst (fun t => t.id == i)
          (fun t => { t with status := Status.cancelled })
          (fun t => t.end_time) (fun _ => rfl) db
        simp [hrej, update_task_status, hmap]
  · intro task ev db t₀ h
    refine ⟨execFinal task ev t₀, execute_task_db_find task ev db t₀ h, ?_⟩
    unfold execFinal
    by_cases ho : ev.openOk
    · by_cases hp : ev.popenOk
      · cases htm : task.timeout with
        | none => simp [ho, hp]
        | some tmo =>
          by_cases h0 : tmo = 0
          · simp [ho, hp, h0]
          · by_cases hd : ev.duration ≤ tmo
            · simp [ho, hp, h0, hd]
            · simp [ho, hp, h0, hd]
      · simp [ho, hp]
    · simp [ho]

/-- Witness for the amended claim C3: the cancel of the concrete running
task preserves every end_time, and the concrete executed run ends with an
end_time and a terminal executor status. -/
theorem C3_amended_witness :
    ((cmd_cancel [runningTask] 1 true).1).map (fun t => t.end_time)
        = [runningTask].map (fun t => t.end_time)
    ∧ ∃ tf, ((execute_task exitOneTask exitOneRun [exitOneTask]).db).find?
          (fun t => t.id == exitOneTask.id) = some tf
        ∧ tf.end_time.isSome = true
        ∧ (tf.status = Status.completed ∨ tf.status = Status.failed) :=
  ⟨C3_amended_end_time_paths.1 [runningTask] 1 true,
   C3_amended_end_time_paths.2 exitOneTask exitOneRun [exitOneTask] exitOneTask rfl⟩

/-- Claim C4: get_tasks returns the pending tasks sorted ascending by
(priority, created_at); the result is a permutation of the pending rows;
rows of equal key keep their insertion (store) order; within an iteration
the dispatcher releases exactly a prefix of that sequence in that order; and
on the spec scenario — priorities [3,1,2] submitted in that order — the
release order is the priority-1 task, then 2, then 3. -/
theorem C4_dispatch_order :
    (∀ db : List Task, List.Sorted taskLe (get_tasks db (some [Status.pending])))
    ∧ (∀ db : List Task, (get_tasks db (some [Status.pending])).Perm
        (db.filter (fun t => t.status == Status.pending)))
    ∧ (∀ (db : List Task) (pr : Int) (c : Nat),
        (get_tasks db (some [Status.pending])).filter
            (fun t => t.priority == pr && t.created_at == c)
          = (db.filter (fun t => t.status == Status.pending)).filter
              (fun t => t.priority == pr && t.created_at == c))
    ∧ (∀ (db : List Task) (si : Nat),
        (scheduler_iteration db si (MonitorResult.ok false)).released
          = (get_tasks db (some [Status.pending])).take 5)
    ∧ (scheduler_iteration example312 2 (MonitorResult.ok false)).released.map
        (fun t => (t.id, t.priority)) = [(2, 1), (3, 2), (1, 3)] := by
  refine ⟨?_, ?_, ?_, ?_, ?_⟩
  · intro db
    rw [get_tasks_pending]
    exact List.sorted_insertionSort taskLe _
  · intro db
    rw [get_tasks_pending]
    exact List.perm_insertionSort taskLe _
  · intro db pr c
    rw [get_tasks_pending]
    apply filter_insertionSort
    intro a b hpa hpb
    simp only [Bool.and_eq_true, beq_iff_eq] at hpa hpb
    exact Or.inr ⟨hpa.1.trans hpb.1.symm, by omega⟩
  · intro db si
    unfold scheduler_iteration
    by_cases hp : (get_tasks db (some [Status.pending])).isEmpty
    · simp [hp, List.isEmpty_iff.mp hp]
    · simp [hp]
  · decide

/-- Claim C5: in an iteration whose resource probe reports overloaded, the
dispatcher releases no task (so no task can move from pending to running in
that iteration — execute_task runs only on released tasks), skips dispatch
entirely, and sleeps the fixed 30-second cooldown before re-polling. -/
theorem C5_overload_skips_dispatch (db : List Task) (si : Nat) :
    scheduler_iteration db si (MonitorResult.ok true)
      = { released := [], sleep_interval := si, outcome := IterOutcome.cooldown 30 } :=
  rfl

/-- Claim C6: with a non-zero timeout T and a child still running at T
seconds (duration > T), the executor stops waiting at T and records failed
with end_time = start_time + T (the timeout, not the full command duration);
with timeout absent or zero it waits for the full duration, however long. -/
theorem C6_timeout_enforcement (task : Task) (ev : ExecEnv) (db : List Task) (t₀ : Task)
    (h : db.find? (fun t => t.id == task.id) = some t₀)
    (ho : ev.openOk = true) (hp : ev.popenOk = true) :
    (∀ tmo, task.timeout = some tmo → tmo ≠ 0 → tmo < ev.duration →
      ((execute_task task ev db).db).find? (fun t => t.id == task.id)
        = some { t₀ with
            status := Status.failed
            start_time := some ev.clock
            pid := some ev.pid
            end_time := some (ev.clock + tmo) })
    ∧ ((task.timeout = none ∨ task.timeout = some 0) →
      ((execute_task task ev db).db).find? (fun t => t.id == task.id)
        = some { t₀ with
            status := Status.completed
            start_time := some ev.clock
            pid := some ev.pid
            end_time := some (ev.clock + ev.duration) }) := by
  constructor
  · intro tmo htm h0 hd
    rw [execute_task_db_find task ev db t₀ h]
    unfold execFinal
    simp [ho, hp, htm, h0, Nat.not_le.mpr hd]
  · intro hcase
    rw [execute_task_db_find task ev db t₀ h]
    unfold execFinal
    rcases hcase with hnone | h0
    · simp [ho, hp, hnone]
    · simp [ho, hp, h0]

/-- Witness for claim C6: timeout 1, command sleeping 5 seconds — the task
fails with end_time - start_time = 1, not 5. -/
theorem C6_timeout_witness :
    ((execute_task sleepyTask sleepyRun [sleepyTask]).db).find?
        (fun t => t.id == sleepyTask.id)
      = some { sleepyTask with
          status := Status.failed
          start_time := some 200
          pid := some 9
          end_time := some 201 } := by
  have h := (C6_timeout_enforcement sleepyTask sleepyRun [sleepyTask] sleepyTask
    rfl rfl rfl).1 1 rfl (by decide) (by decide)
  exact h

/-- Claim C7: a cancel request for a task that is neither pending nor
running is rejected with a report naming the status, is not fatal (the
command returns normally), and leaves the store — in particular that task
and its status — unchanged. -/
theorem C7_cancel_rejected (db : List Task) (i : Nat) (k : Bool) (t₀ : Task)
    (h : get_task_by_id db i = some t₀)
    (hs : t₀.status ≠ Status.pending) (hr : t₀.status ≠ Status.running) :
    cmd_cancel db i k = (db, CancelOutcome.rejected t₀.status) := by
  unfold cmd_cancel
  have hb : (t₀.status != Status.pending && t₀.status != Status.running) = true := by
    simp [bne_iff_ne, hs, hr]
  simp [h, hb]

/-- Witness for claim C7: cancelling the already-completed task is rejected
and the store is unchanged. -/
theorem C7_cancel_rejected_witness :
    cmd_cancel [doneTask] 4 true = ([doneTask], CancelOutcome.rejected Status.completed) := by
  have h := C7_cancel_rejected [doneTask] 4 true doneTask rfl (by decide) (by decide)
  exact h

/-- Claim C8, counterexample: when the resource probe raises, the iteration
does not behave as an overloaded (cooldown) iteration; the exception
propagates and the loop terminates through the finally block. -/
theorem C8_counterexample :
    (scheduler_iteration [] 2 MonitorResult.err).outcome = IterOutcome.crashed
    ∧ scheduler_loop_continues (scheduler_iteration [] 2 MonitorResult.err).outcome = false
    ∧ (scheduler_iteration [] 2 MonitorResult.err).outcome ≠ IterOutcome.cooldown 30 :=
  ⟨rfl, rfl, by decide⟩

/-- Claim C8 as amended: a probe failure admits zero tasks in that
iteration, but not by failing closed: the uncaught exception terminates the
scheduler loop (the pool is shut down and the run-state marker set to
stopped), instead of being treated as overloaded or as not overloaded. -/
theorem C8_amended_probe_failure_crashes (db : List Task) (si : Nat) :
    scheduler_iteration db si MonitorResult.err
      = { released := [], sleep_interval := si, outcome := IterOutcome.crashed }
    ∧ scheduler_loop_continues IterOutcome.crashed = false :=
  ⟨rfl, rfl⟩

/-- Claim C9, counterexample: starting from the base interval 2, two idle
iterations double the interval to 4 and then 8; the iteration that then
finds pending work releases tasks but leaves the interval at 8 — it is not
reset to the base — and the next idle iteration sleeps 16, not 4. -/
theorem C9_counterexample :
    initial_sleep_interval = 2
    ∧ (scheduler_iteration [] initial_sleep_interval (MonitorResult.ok false)).sleep_interval = 4
    ∧ (scheduler_iteration [] 4 (MonitorResult.ok false)).sleep_interval = 8
    ∧ (scheduler_iteration example312 8 (MonitorResult.ok false)).released ≠ []
    ∧ (scheduler_iteration example312 8 (MonitorResult.ok false)).sleep_interval = 8
    ∧ (scheduler_iteration [] 8 (MonitorResult.ok false)).sleep_interval = 16 := by
  refine ⟨rfl, rfl, rfl, by decide, by decide, rfl⟩

/-- Claim C9 as amended: when no pending task is found the sleep interval
doubles, capped at the 60-second ceiling, and the iteration sleeps that
long; when pending work is found the interval is left unchanged — it is
never reset to the base value (the reset arm of the source expression is
unreachable). -/
theorem C9_amended_backoff (db : List Task) (si : Nat) :
    ((get_tasks db (some [Status.pending])).isEmpty = true →
      scheduler_iteration db si (MonitorResult.ok false)
        = { released := []
            sleep_interval := min (si * 2) 60
            outcome := IterOutcome.idle (min (si * 2) 60) })
    ∧ ((get_tasks db (some [Status.pending])).isEmpty = false →
      (scheduler_iteration db si (MonitorResult.ok false)).sleep_interval = si) := by
  constructor
  · intro hp
    unfold scheduler_iteration
    simp [hp]
  · intro hp
    unfold scheduler_iteration
    simp [hp]

/-- Witness for the amended claim C9: an idle iteration from interval 2
sleeps 4; a busy iteration at interval 8 keeps interval 8. -/
theorem C9_amended_witness :
    scheduler_iteration [] 2 (MonitorResult.ok false)
      = { released := [], sleep_interval := 4, outcome := IterOutcome.idle 4 }
    ∧ (scheduler_iteration example312 8 (MonitorResult.ok false)).sleep_interval = 8 :=
  ⟨(C9_amended_backoff [] 2).1 rfl, (C9_amended_backoff example312 8).2 (by decide)⟩

/-- Claim C10: every store point update called with an id held by no row
returns normally and leaves the store unchanged. -/
theorem C10_update_missing_id (db : List Task) (i : Nat) (st : Status)
    (pd ts te : Nat) (h : ∀ t ∈ db, t.id ≠ i) :
    update_task_status db i st = db
    ∧ update_task_pid db i pd = db
    ∧ update_task_start_time db i ts = db
    ∧ update_task_end_time db i te = db := by
  have hp : ∀ t ∈ db, (t.id == i) = false := by
    intro t ht
    simpa using h t ht
  unfold update_task_status update_task_pid update_task_start_time update_task_end_time
  exact ⟨updateFirst_eq_of_none _ _ db hp, updateFirst_eq_of_none _ _ db hp,
    updateFirst_eq_of_none _ _ db hp, updateFirst_eq_of_none _ _ db hp⟩

/-- Witness for claim C10: updating the absent id 9 leaves the three-task
store unchanged in all four operations. -/
theorem C10_update_missing_id_witness :
    update_task_status example312 9 Status.failed = example312
    ∧ update_task_pid example312 9 1 = example312
    ∧ update_task_start_time example312 9 1 = example312
    ∧ update_task_end_time example312 9 1 = example312 :=
  C10_update_missing_id example312 9 Status.failed 1 1 1 (by decide)

end TaskQ
